import Mathlib

/-!
Verification of the ecg-contec codec layer.

The definitions below are a shallow embedding of the Python sources
`ecg_contec.py` (device-file reader and SCP-ECG/CSV exporters) and
`tools/ecg_scp.py` (SCP-ECG helper module).  Byte strings are modelled as
`List Nat` with every element a byte value; machine integers are `Nat`/`Int`
with explicit reductions modulo 2^w where the Python code packs fixed-width
fields.  Each definition cites the source function it embeds.
-/

/-! ## Little-endian packing primitives (struct.pack) -/

/-- Bytes of `struct.pack('<H', n)`: two little-endian bytes of a 16-bit value. -/
def u16le (n : Nat) : List Nat := [n % 256, n / 256 % 256]

/-- Bytes of `struct.pack('<I', n)`: four little-endian bytes of a 32-bit value. -/
def u32le (n : Nat) : List Nat :=
  [n % 256, n / 256 % 256, n / 65536 % 256, n / 16777216 % 256]

/-- Bytes of `struct.pack('<h', v)` for an in-range signed 16-bit value:
two little-endian bytes of the two's-complement representation. -/
def i16le (v : Int) : List Nat := u16le (v % 65536).toNat

theorem u16le_length (n : Nat) : (u16le n).length = 2 := rfl

theorem u32le_length (n : Nat) : (u32le n).length = 4 := rfl

theorem i16le_length (v : Int) : (i16le v).length = 2 := rfl

/-! ## CRC-HQX (binascii.crc_hqx)

CRC-CCITT with polynomial 0x1021, MSB-first per byte, no reflection, no
final XOR; the caller supplies the initial value (0xFFFF throughout the
sources). -/

/-- One MSB-first shift step of the CRC register. -/
def crc_shift (c : Nat) : Nat :=
  if c.testBit 15 then ((2 * c) ^^^ 0x1021) % 65536 else (2 * c) % 65536

/-- Fold one data byte into the CRC register: XOR the byte into the high
half, then shift eight times. -/
def crc_byte (c b : Nat) : Nat :=
  crc_shift (crc_shift (crc_shift (crc_shift (crc_shift (crc_shift
    (crc_shift (crc_shift (c ^^^ (b % 256) * 256))))))))

/-- `binascii.crc_hqx(data, crc)`. -/
def crc_hqx (data : List Nat) (crc : Nat) : Nat :=
  data.foldl crc_byte (crc % 65536)

/-! ## SCP-ECG helper module (`tools/ecg_scp.py`) -/

def SCPECG_HEADER_LEN : Nat := 6
def SECTION_HEADER_LEN : Nat := 16
def POINTER_FIELD_LEN : Nat := 10

/-- `ecg_scp.pack_section(sect, data_part)`: prepend the 16-byte section
header (CRC, id, length, version 0x14, protocol 0x14, 6 reserved bytes) to
the payload.  The reserved bytes are ASCII `SCPECG` for section 0. -/
def pack_section (sect : Nat) (data_part : List Nat) : List Nat :=
  let sect_id := u16le sect
  let length := u32le (SECTION_HEADER_LEN + data_part.length)
  let version := [0x14]
  let protocol := [0x14]
  let reserved := if sect = 0 then [0x53, 0x43, 0x50, 0x45, 0x43, 0x47]
                  else [0, 0, 0, 0, 0, 0]
  let buff := sect_id ++ length ++ version ++ protocol ++ reserved ++ data_part
  u16le (crc_hqx buff 0xffff) ++ buff

set_option maxRecDepth 100000 in
/-- C9: the CRC-HQX function (polynomial 0x1021, MSB-first, initial value
0xFFFF, no reflection, no final XOR) maps the nine ASCII bytes "123456789"
with seed 0xFFFF to 0x29B1. -/
theorem c9_crc_hqx_check_value :
    crc_hqx [0x31, 0x32, 0x33, 0x34, 0x35, 0x36, 0x37, 0x38, 0x39] 0xffff = 0x29B1 := by
  decide

/-- C2: for every section id and payload, `pack_section` returns the
16-byte header `u16 section_crc || u16 section_id || u32 section_length ||
u8 0x14 || u8 0x14 || 6 reserved bytes` followed by the payload, where the
reserved bytes are ASCII "SCPECG" exactly when the id is 0 and six zero
bytes otherwise, `section_length = 16 + payload length`, and `section_crc`
is CRC-HQX over the 14 header bytes following the CRC concatenated with the
payload. -/
theorem c2_pack_section_layout (sect : Nat) (data_part : List Nat) :
    ∃ crc hdr14,
      pack_section sect data_part = u16le crc ++ hdr14 ++ data_part ∧
      (u16le crc ++ hdr14).length = 16 ∧
      hdr14 = u16le sect ++ u32le (16 + data_part.length) ++ [0x14, 0x14] ++
        (if sect = 0 then "SCPECG".toList.map Char.toNat else List.replicate 6 0) ∧
      crc = crc_hqx (hdr14 ++ data_part) 0xffff := by
  have hres : (if sect = 0 then [0x53, 0x43, 0x50, 0x45, 0x43, 0x47]
        else ([0, 0, 0, 0, 0, 0] : List Nat)) =
      (if sect = 0 then "SCPECG".toList.map Char.toNat else List.replicate 6 0) := by
    split <;> decide
  refine ⟨_, _, ?_, ?_, rfl, rfl⟩
  · simp only [pack_section, SECTION_HEADER_LEN, hres, List.append_assoc,
      List.singleton_append, List.cons_append, List.nil_append]
  · simp only [List.length_append, u16le_length, u32le_length, List.length_cons,
      List.length_nil]
    split <;> simp

/-! ## SCP-ECG record assembly (`ecg_contec.py`, `ecg.export_scp`)

The record is assembled from the twelve section payloads `s 0 .. s 11`
prepared earlier in `export_scp`; only ids 0, 1, 2, 3 and 6 are consulted.
`s` is passed as a function from section id to payload bytes. -/

/-- The `size` accumulation loop of `export_scp`:
`size = 6; for sect_id in (0,1,2,3,6): if len(s[sect_id]) > 0: size += 16 + len`. -/
def scp_record_size (s : Nat → List Nat) : Nat :=
  [0, 1, 2, 3, 6].foldl
    (fun size sect_id =>
      if 0 < (s sect_id).length then size + (SECTION_HEADER_LEN + (s sect_id).length)
      else size)
    SCPECG_HEADER_LEN

/-- The section concatenation loop of `export_scp`:
`for sect_id in (0,1,2,3,6): if len(s[sect_id]) > 0: scp_ecg += pack_section(...)`. -/
def scp_record_sections (s : Nat → List Nat) : List Nat :=
  [0, 1, 2, 3, 6].foldl
    (fun acc sect_id =>
      if 0 < (s sect_id).length then acc ++ pack_section sect_id (s sect_id)
      else acc)
    []

/-- `scp_ecg = struct.pack('<I', size) + sections` in `export_scp`. -/
def scp_record_body (s : Nat → List Nat) : List Nat :=
  u32le (scp_record_size s) ++ scp_record_sections s

/-- The bytes written by `export_scp`: `crc + scp_ecg` where
`crc = struct.pack('<H', binascii.crc_hqx(scp_ecg, 0xffff))`. -/
def export_scp_record (s : Nat → List Nat) : List Nat :=
  u16le (crc_hqx (scp_record_body s) 0xffff) ++ scp_record_body s

theorem scp_sections_foldl (s : Nat → List Nat) (ids : List Nat) (acc : List Nat) :
    ids.foldl
      (fun acc sect_id =>
        if 0 < (s sect_id).length then acc ++ pack_section sect_id (s sect_id)
        else acc) acc =
    acc ++ ((ids.filter fun i => decide ((s i) ≠ [])).map
      fun i => pack_section i (s i)).flatten := by
  induction ids generalizing acc with
  | nil => simp
  | cons i rest ih =>
      by_cases hi : s i = []
      · simp [hi, ih]
      · have : 0 < (s i).length := List.length_pos.mpr hi
        simp [hi, this, ih, List.append_assoc]

theorem scp_size_foldl (s : Nat → List Nat) (ids : List Nat) (acc : Nat) :
    ids.foldl
      (fun size sect_id =>
        if 0 < (s sect_id).length then size + (SECTION_HEADER_LEN + (s sect_id).length)
        else size) acc =
    acc + ((ids.filter fun i => decide ((s i) ≠ [])).map
      fun i => 16 + (s i).length).sum := by
  induction ids generalizing acc with
  | nil => simp
  | cons i rest ih =>
      by_cases hi : s i = []
      · simp [hi, ih]
      · have hpos : 0 < (s i).length := List.length_pos.mpr hi
        simp only [List.foldl_cons, if_pos hpos]
        rw [ih]
        simp [hi, SECTION_HEADER_LEN]
        omega

/-- C1: `export_scp` emits `u16 record_crc || u32 record_size ||` the packed
sections for the ids in {0,1,2,3,6} with non-empty payload, in ascending id
order; `record_size` is 6 plus the sum of `16 + payload length` over exactly
those sections, and `record_crc` is CRC-HQX (seed 0xFFFF) over all bytes
starting at `record_size` through the end of the last section. -/
theorem c1_export_scp_record_layout (s : Nat → List Nat) :
    export_scp_record s =
      u16le (crc_hqx
          (u32le (scp_record_size s) ++
            (([0, 1, 2, 3, 6].filter fun i => decide ((s i) ≠ [])).map
              fun i => pack_section i (s i)).flatten) 0xffff) ++
        u32le (scp_record_size s) ++
        (([0, 1, 2, 3, 6].filter fun i => decide ((s i) ≠ [])).map
          fun i => pack_section i (s i)).flatten ∧
    scp_record_size s =
      6 + (([0, 1, 2, 3, 6].filter fun i => decide ((s i) ≠ [])).map
        fun i => 16 + (s i).length).sum := by
  have hsec : scp_record_sections s =
      (([0, 1, 2, 3, 6].filter fun i => decide ((s i) ≠ [])).map
        fun i => pack_section i (s i)).flatten := by
    simpa using scp_sections_foldl s [0, 1, 2, 3, 6] []
  have hsize : scp_record_size s =
      6 + (([0, 1, 2, 3, 6].filter fun i => decide ((s i) ≠ [])).map
        fun i => 16 + (s i).length).sum := by
    simpa [SCPECG_HEADER_LEN] using scp_size_foldl s [0, 1, 2, 3, 6] 6
  refine ⟨?_, hsize⟩
  simp [export_scp_record, scp_record_body, hsec, List.append_assoc]

/-! ## Section #0 pointer table (`ecg_scp.make_pointer_field`, `ecg.export_scp`) -/

/-- `ecg_scp.make_pointer_field(sect, length, index)`: a 10-byte pointer
field `u16 id || u32 length || u32 index`, with the index forced to 0 when
the length is 0. -/
def make_pointer_field (sect length index : Nat) : List Nat :=
  u16le sect ++ u32le length ++ u32le (if length = 0 then 0 else index)

theorem make_pointer_field_length (a b c : Nat) :
    (make_pointer_field a b c).length = 10 := by
  simp [make_pointer_field, u16le, u32le]

/-- The `for sect_id in range(1, 12)` loop of `export_scp`: append one
pointer field per section id (length = payload length + 16 when non-empty,
else 0) and advance the running index by that length. -/
def pointer_loop (s : Nat → List Nat) : List Nat → Nat → List Nat
  | [], _ => []
  | sect_id :: rest, index =>
      let len0 := (s sect_id).length
      let length := if 0 < len0 then len0 + SECTION_HEADER_LEN else len0
      make_pointer_field sect_id length index ++ pointer_loop s rest (index + length)

/-- The Section #0 payload built by `export_scp`: the pointer field for
section 0 (length 16 + 10*12, index 6 + 1) followed by the fields for ids
1..11 starting at index 7 + 136. -/
def section0_payload (s : Nat → List Nat) : List Nat :=
  let length := SECTION_HEADER_LEN + POINTER_FIELD_LEN * 12
  let index := SCPECG_HEADER_LEN + 1
  make_pointer_field 0 length index ++
    pointer_loop s [1, 2, 3, 4, 5, 6, 7, 8, 9, 10, 11] (index + length)

/-- The k-th 10-byte entry of a pointer table. -/
def pointer_entry (bs : List Nat) (k : Nat) : List Nat :=
  (bs.drop (10 * k)).take 10

theorem pointer_entry_zero (x rest : List Nat) (hx : x.length = 10) :
    pointer_entry (x ++ rest) 0 = x := by
  simp [pointer_entry, ← hx, List.take_left]

theorem pointer_entry_chain (x rest : List Nat) (k : Nat) (hx : x.length = 10)
    (hk : 0 < k) : pointer_entry (x ++ rest) k = pointer_entry rest (k - 1) := by
  obtain ⟨m, rfl⟩ : ∃ m, k = m + 1 := ⟨k - 1, by omega⟩
  simp only [pointer_entry, Nat.add_sub_cancel]
  have h10 : 10 * (m + 1) = 10 + 10 * m := by ring
  have hd : (x ++ rest).drop 10 = rest := by rw [← hx, List.drop_left]
  rw [h10, ← List.drop_drop, hd]

theorem make_pointer_field_zero (a c : Nat) :
    make_pointer_field a 0 c = make_pointer_field a 0 0 := by
  simp [make_pointer_field]

/-- C3: in the Section #0 pointer table built by `export_scp` when only
sections {0,1,3,6} are non-empty, the entry for id 0 has length 136 and
index 7; the entry for section 1 has index 143; section 3's index is
143 + 16 + len(s 1); section 6's index is section 3's index + 16 + len(s 3);
and every entry whose length field is 0 has index 0. -/
theorem c3_section0_pointer_entries (s : Nat → List Nat)
    (h1 : s 1 ≠ []) (h3 : s 3 ≠ []) (h6 : s 6 ≠ [])
    (h2 : s 2 = []) (h4 : s 4 = []) (h5 : s 5 = [])
    (h7 : s 7 = []) (h8 : s 8 = []) (h9 : s 9 = [])
    (h10 : s 10 = []) (h11 : s 11 = []) :
    pointer_entry (section0_payload s) 0 = u16le 0 ++ u32le 136 ++ u32le 7 ∧
    pointer_entry (section0_payload s) 1 =
      u16le 1 ++ u32le ((s 1).length + 16) ++ u32le 143 ∧
    pointer_entry (section0_payload s) 3 =
      u16le 3 ++ u32le ((s 3).length + 16) ++ u32le (143 + 16 + (s 1).length) ∧
    pointer_entry (section0_payload s) 6 =
      u16le 6 ++ u32le ((s 6).length + 16) ++
        u32le (143 + 16 + (s 1).length + 16 + (s 3).length) ∧
    ∀ k ∈ [2, 4, 5, 7, 8, 9, 10, 11],
      pointer_entry (section0_payload s) k = u16le k ++ u32le 0 ++ u32le 0 := by
  have hpos1 : 0 < (s 1).length := List.length_pos.mpr h1
  have hpos3 : 0 < (s 3).length := List.length_pos.mpr h3
  have hpos6 : 0 < (s 6).length := List.length_pos.mpr h6
  have hp : section0_payload s =
      make_pointer_field 0 136 7 ++
      (make_pointer_field 1 ((s 1).length + 16) 143 ++
      (make_pointer_field 2 0 0 ++
      (make_pointer_field 3 ((s 3).length + 16) (143 + ((s 1).length + 16)) ++
      (make_pointer_field 4 0 0 ++
      (make_pointer_field 5 0 0 ++
      (make_pointer_field 6 ((s 6).length + 16)
          (143 + ((s 1).length + 16) + ((s 3).length + 16)) ++
      (make_pointer_field 7 0 0 ++
      (make_pointer_field 8 0 0 ++
      (make_pointer_field 9 0 0 ++
      (make_pointer_field 10 0 0 ++
      make_pointer_field 11 0 0)))))))))) := by
    simp [section0_payload, pointer_loop, SECTION_HEADER_LEN, SCPECG_HEADER_LEN,
      POINTER_FIELD_LEN, h2, h4, h5, h7, h8, h9, h10, h11, hpos1, hpos3, hpos6,
      make_pointer_field_zero]
  refine ⟨?_, ?_, ?_, ?_, ?_⟩
  · simp [hp, pointer_entry, make_pointer_field, u16le, u32le]
  · simp [hp, pointer_entry, make_pointer_field, u16le, u32le]
  · simp [hp, pointer_entry, make_pointer_field, u16le, u32le]
    omega
  · simp [hp, pointer_entry, make_pointer_field, u16le, u32le]
    omega
  · intro k hk
    simp only [List.mem_cons, List.not_mem_nil, or_false] at hk
    rcases hk with rfl | rfl | rfl | rfl | rfl | rfl | rfl | rfl <;>
      simp [hp, pointer_entry, make_pointer_field, u16le, u32le]

/-- A concrete section-payload assignment where only {0,1,3,6} are
non-empty (section 0 itself is built by the pointer loop and not consulted). -/
def c3Sections : Nat → List Nat := fun i =>
  if i = 1 then [9] else if i = 3 then [8, 8] else if i = 6 then [7] else []

theorem c3_section0_pointer_entries_witness :
    pointer_entry (section0_payload c3Sections) 0 = u16le 0 ++ u32le 136 ++ u32le 7 ∧
    pointer_entry (section0_payload c3Sections) 1 =
      u16le 1 ++ u32le ((c3Sections 1).length + 16) ++ u32le 143 ∧
    pointer_entry (section0_payload c3Sections) 3 =
      u16le 3 ++ u32le ((c3Sections 3).length + 16) ++
        u32le (143 + 16 + (c3Sections 1).length) ∧
    pointer_entry (section0_payload c3Sections) 6 =
      u16le 6 ++ u32le ((c3Sections 6).length + 16) ++
        u32le (143 + 16 + (c3Sections 1).length + 16 + (c3Sections 3).length) ∧
    ∀ k ∈ [2, 4, 5, 7, 8, 9, 10, 11],
      pointer_entry (section0_payload c3Sections) k = u16le k ++ u32le 0 ++ u32le 0 :=
  c3_section0_pointer_entries c3Sections (by decide) (by decide) (by decide)
    (by decide) (by decide) (by decide) (by decide) (by decide) (by decide)
    (by decide) (by decide)

/-! ## Row iterator derived leads (`ecg_contec.py`, `ecg.readline`)

Sample cells are `Option Int`: `none` is the null sentinel (device value
0x6800), `some v` a signed sample already shifted by the x-offset.
Python's `int(x / 2)` truncates toward zero, which is `Int.tdiv _ 2`. -/

/-- The Einthoven/Goldberger derivation in `readline`: given cells for
leads II and III, return `(I, aVR, aVL, aVF)`; all four are null when
either input is null. -/
def derive_leads (lead_ii lead_iii : Option Int) :
    Option Int × Option Int × Option Int × Option Int :=
  match lead_ii, lead_iii with
  | some ii, some iii =>
      (some (ii - iii), some (Int.tdiv iii 2 - ii), some (Int.tdiv ii 2 - iii),
        some (Int.tdiv (ii + iii) 2))
  | _, _ => (none, none, none, none)

/-- The row assembled and yielded by `readline`:
`[lead_i, lead_ii, lead_iii, lead_avr, lead_avl, lead_avf] + row[2:]`,
truncated to `cols` entries. -/
def readline_ecg_row (row : List (Option Int)) (cols : Nat) : List (Option Int) :=
  let lead_ii := row.getD 0 none
  let lead_iii := row.getD 1 none
  let d := derive_leads lead_ii lead_iii
  ([d.1, lead_ii, lead_iii, d.2.1, d.2.2.1, d.2.2.2] ++ row.drop 2).take cols

/-- C4 counterexample: at II = 1, III = 0 (an odd sum), the computed aVF is
`(1 + 0).tdiv 2 = 0` and `2·aVF ≠ II + III`, so the claimed identity
`2·aVF == II + III` fails on the code. -/
theorem c4_counterexample :
    (derive_leads (some 1) (some 0)).2.2.2 = some (Int.tdiv (1 + 0) 2) ∧
    ¬ (2 * Int.tdiv ((1 : Int) + 0) 2 = 1 + 0) := by decide

/-- C4 (amended): for every row in which leads II and III are both
non-null, the derived leads satisfy `I + III = II` always, and
`2·aVF = II + III` whenever `II + III` is even. -/
theorem c4_derived_leads (ii iii i avf : Int)
    (hI : (derive_leads (some ii) (some iii)).1 = some i)
    (hF : (derive_leads (some ii) (some iii)).2.2.2 = some avf) :
    i + iii = ii ∧ (2 ∣ ii + iii → 2 * avf = ii + iii) := by
  simp only [derive_leads, Option.some.injEq] at hI hF
  refine ⟨by omega, ?_⟩
  rintro ⟨k, hk⟩
  rw [hk] at hF ⊢
  rw [Int.mul_tdiv_cancel_left k (by norm_num)] at hF
  omega

theorem c4_derived_leads_witness :
    (60 : Int) + 40 = 100 ∧ ((2 : Int) ∣ (100 : Int) + 40 → (2 : Int) * 70 = 100 + 40) :=
  c4_derived_leads 100 40 60 70 (by decide) (by decide)

/-! ## Second-difference reconstructor (`ecg_scp.second_diff`) -/

/-- State of `ecg_scp.second_diff`: the previously emitted value and the
previous first difference, both initially absent. -/
structure SecondDiffState where
  previous_val : Option Int
  previous_diff1 : Option Int

def second_diff_init : SecondDiffState := ⟨none, none⟩

/-- `second_diff.val(diff2)`: emit one value and update the state.  The
first input is returned as-is; the second initializes the first-difference
register as `diff2 - previous_val` and is returned as-is; afterwards
`diff1 += diff2; val += diff1`. -/
def second_diff_val (st : SecondDiffState) (diff2 : Int) : Int × SecondDiffState :=
  match st.previous_val with
  | none => (diff2, ⟨some diff2, st.previous_diff1⟩)
  | some pv =>
    match st.previous_diff1 with
    | none => (diff2, ⟨some diff2, some (diff2 - pv)⟩)
    | some pd1 =>
        let diff1 := pd1 + diff2
        let val := pv + diff1
        (val, ⟨some val, some diff1⟩)

/-- Feed a list of inputs through a freshly initialized reconstructor,
collecting the emitted values. -/
def second_diff_run (inputs : List Int) : List Int :=
  (inputs.foldl (fun (acc : List Int × SecondDiffState) d2 =>
      ((second_diff_val acc.2 d2).1 :: acc.1, (second_diff_val acc.2 d2).2))
    ([], second_diff_init)).1.reverse

/-- C6 counterexample: a freshly initialized reconstructor fed 10, 3, 1, -2
emits 10, 3, -3, -11 — not 10, 13, 9, 3 as claimed (the second input is
returned as-is, not accumulated). -/
theorem c6_counterexample :
    second_diff_run [10, 3, 1, -2] = [10, 3, -3, -11] ∧
    second_diff_run [10, 3, 1, -2] ≠ [10, 13, 9, 3] := by decide

/-- C6 (amended): feeding the inputs 10, 3, 1, -2 one at a time to a
freshly initialized second-difference reconstructor yields the outputs
10, 3, -3, -11 in that order. -/
theorem c6_second_diff_outputs :
    second_diff_run [10, 3, 1, -2] = [10, 3, -3, -11] := by decide

/-! ## Huffman decoder (`ecg_scp.huffman_decoder.decode`)

The decoder walks the input bytes MSB-first, accumulating bits either into
a Huffman code (prefix mode) or into an 8/16-bit literal buffer. -/

/-- The SCP-ECG default Huffman table of `huffman_decoder`: maps a
(bit-count, accumulated-bits) pair to its symbol.  The sentinels 511 and
1023 stand for the 8-bit and 16-bit literal escapes (`_8bit`, `_16bit`). -/
def default_table (sz bits : Nat) : Option Int :=
  if sz = 1 ∧ bits = 0b0 then some 0
  else if sz = 3 ∧ bits = 0b100 then some 1
  else if sz = 3 ∧ bits = 0b101 then some (-1)
  else if sz = 4 ∧ bits = 0b1100 then some 2
  else if sz = 4 ∧ bits = 0b1101 then some (-2)
  else if sz = 5 ∧ bits = 0b11100 then some 3
  else if sz = 5 ∧ bits = 0b11101 then some (-3)
  else if sz = 6 ∧ bits = 0b111100 then some 4
  else if sz = 6 ∧ bits = 0b111101 then some (-4)
  else if sz = 7 ∧ bits = 0b1111100 then some 5
  else if sz = 7 ∧ bits = 0b1111101 then some (-5)
  else if sz = 8 ∧ bits = 0b11111100 then some 6
  else if sz = 8 ∧ bits = 0b11111101 then some (-6)
  else if sz = 9 ∧ bits = 0b111111100 then some 7
  else if sz = 9 ∧ bits = 0b111111101 then some (-7)
  else if sz = 10 ∧ bits = 0b1111111100 then some 8
  else if sz = 10 ∧ bits = 0b1111111101 then some (-8)
  else if sz = 10 ∧ bits = 0b1111111110 then some 511
  else if sz = 10 ∧ bits = 0b1111111111 then some 1023
  else none

/-- The MSB-first bits of one byte, as tested by the masks
`[128, 64, 32, 16, 8, 4, 2, 1]` in `decode`. -/
def byteBits (b : Nat) : List Bool :=
  [128, 64, 32, 16, 8, 4, 2, 1].map fun m => b &&& m != 0

/-- An MSB-first bit buffer read back as an unsigned value
(`int(orig_bits_buffer, 2)`). -/
def bitsToNat (bits : List Bool) : Nat :=
  bits.foldl (fun acc bit => 2 * acc + (if bit then 1 else 0)) 0

/-- Reinterpret an 8-bit unsigned value as signed two's complement
(`struct.unpack('b', struct.pack('B', n))`). -/
def int8_of_bits (n : Nat) : Int := if n < 128 then (n : Int) else (n : Int) - 256

/-- Reinterpret a 16-bit unsigned value as signed two's complement
(`struct.unpack('h', struct.pack('H', n))`). -/
def int16_of_bits (n : Nat) : Int :=
  if n < 32768 then (n : Int) else (n : Int) - 65536

/-- The bit-level loop of `huffman_decoder.decode`.  State: `pfx`/`sz` hold
the Huffman code accumulated so far, `getOrig` counts literal bits still to
read, `buf` is the literal bit buffer.  Emitted symbols are collected in
order; the trailing unmatched-code warning produces no output. -/
def decodeBits : List Bool → Nat → Nat → Nat → List Bool → List Int
  | [], _, _, _, _ => []
  | bit :: rest, pfx, sz, getOrig, buf =>
    if 0 < getOrig then
      let buf2 := buf ++ [bit]
      if getOrig = 1 then
        if buf2.length = 8 then int8_of_bits (bitsToNat buf2) :: decodeBits rest 0 0 0 []
        else if buf2.length = 16 then
          int16_of_bits (bitsToNat buf2) :: decodeBits rest 0 0 0 []
        else []
      else decodeBits rest pfx sz (getOrig - 1) buf2
    else
      let pfx2 := 2 * pfx + (if bit then 1 else 0)
      let sz2 := sz + 1
      match default_table sz2 pfx2 with
      | some sym =>
          if sym = 511 then decodeBits rest pfx2 sz2 8 buf
          else if sym = 1023 then decodeBits rest pfx2 sz2 16 buf
          else sym :: decodeBits rest 0 0 0 []
      | none => decodeBits rest pfx2 sz2 0 buf

/-- `huffman_decoder.decode(data)`: iterate over the bytes' bits MSB-first
starting in prefix mode with empty state. -/
def huffman_decode (data : List Nat) : List Int :=
  decodeBits ((data.map byteBits).flatten) 0 0 0 []

/-- C5 counterexample: the bitstring `1111111110 00000101` zero-padded on
the right to a byte boundary is the three bytes 0xFF 0x81 0x40; decoding
them yields `[5, 0, 0, 0, 0, 0, 0]`, not exactly `[5]`: each of the six
padding zero bits decodes as the length-1 code for symbol 0. -/
theorem c5_counterexample :
    huffman_decode [0xFF, 0x81, 0x40] = [5, 0, 0, 0, 0, 0, 0] ∧
    huffman_decode [0xFF, 0x81, 0x40] ≠ [5] := by decide

/-- C5 (amended): applying the Huffman decoder to the bytes holding the
bitstring `1111111110 00000101` (MSB-first, zero-padded on the right to a
byte boundary) yields the sequence `[5, 0, 0, 0, 0, 0, 0]`: the 10-bit
escape `1111111110` switches the decoder to an 8-bit literal, the next 8
bits `00000101` are reinterpreted as the signed int8 value 5, and the six
padding zero bits each decode as the one-bit code for symbol 0. -/
theorem c5_huffman_escape_decode :
    huffman_decode [0xFF, 0x81, 0x40] = [5, 0, 0, 0, 0, 0, 0] := by decide

/-! ## CSV cell formatting (`ecg_scp.csv_format`, `ecg.export_csv`) -/

/-- `ecg_scp.csv_format` for the integer path (`num_format='%d'`,
`multiplier=1`): a null value becomes the empty string when
`none_as_empty`, else `"0"`; a non-null value is printed in decimal. -/
def csv_format_int (val : Option Int) (none_as_empty : Bool) : String :=
  match val with
  | none => if none_as_empty then "" else toString (0 : Int)
  | some v => toString v

/-- The parameter names accepted by `ecg_scp.csv_format(val, none_as_empty,
num_format, multiplier)`. -/
def csv_format_params : List String :=
  ["val", "none_as_empty", "num_format", "multiplier"]

/-- The keyword arguments `export_csv` passes to `csv_format` for each cell
in integer mode: `csv_format(x, num_format=u'%d', none_as_zero=none_as_zero)`. -/
def export_csv_cell_kwargs_int : List String := ["num_format", "none_as_zero"]

/-- The keyword arguments `export_csv` passes to `csv_format` for each cell
in millivolt mode:
`csv_format(x, multiplier=amplitude_mult, none_as_zero=none_as_zero)`. -/
def export_csv_cell_kwargs_mv : List String := ["multiplier", "none_as_zero"]

/-- C7: both per-cell calls in `export_csv` pass the keyword `none_as_zero`,
which is not among `csv_format`'s parameters, so in Python every per-cell
call raises `TypeError` and `export_csv` never formats a cell of any data
row. -/
theorem c7_export_csv_keyword_mismatch :
    "none_as_zero" ∈ export_csv_cell_kwargs_int ∧
    "none_as_zero" ∈ export_csv_cell_kwargs_mv ∧
    "none_as_zero" ∉ csv_format_params := by decide

/-! ## Section #6 rhythm data and sample-count cap (`ecg.export_scp`) -/

def ECG90A_SAMPLE_BITS : Nat := 16
def ECG90A_AMPL_NANOVOLT : Nat := 5000

/-- `max_samples = int(0xffff / (ECG90A_SAMPLE_BITS / 8))` in `export_scp`. -/
def scp_max_samples : Nat := 0xffff / (ECG90A_SAMPLE_BITS / 8)

/-- `bytes_to_store` in `export_scp`: `samples * 2`, capped at
`max_samples * 2` when the sample count exceeds the cap. -/
def scp_bytes_to_store (samples : Nat) : Nat :=
  if samples > scp_max_samples then scp_max_samples * (ECG90A_SAMPLE_BITS / 8)
  else samples * ECG90A_SAMPLE_BITS / 8

/-- The error word after the Section #6 cap check:
`if samples > max_samples: err |= 0b10000000`. -/
def scp_err_after_section6 (samples err : Nat) : Nat :=
  if samples > scp_max_samples then err ||| 0b10000000 else err

/-- The per-lead serialization loop of `export_scp`: append each row's
cell `i` as a little-endian int16 (null as 0), stopping once `count`
reaches `max_samples`. -/
def serie_loop (rows : List (List (Option Int))) (i count : Nat) : List Nat :=
  match rows with
  | [] => []
  | row :: rest =>
      let val : Int := match row.getD i none with | none => 0 | some v => v
      i16le val ++ (if count + 1 ≥ scp_max_samples then [] else serie_loop rest i (count + 1))

/-- The Section #6 payload built by `export_scp`: amplitude multiplier,
sample interval, real encoding, no bimodal compression, twelve
bytes-per-lead counters, then the twelve serialized leads. -/
def section6_payload (samples sample_rate : Nat)
    (rows : List (List (Option Int))) : List Nat :=
  u16le ECG90A_AMPL_NANOVOLT ++ u16le (1000000 / sample_rate) ++ [0, 0] ++
    ((List.range 12).map fun _ => u16le (scp_bytes_to_store samples)).flatten ++
    ((List.range 12).map fun i => serie_loop rows i 0).flatten

theorem serie_loop_length (rows : List (List (Option Int))) (i : Nat) :
    ∀ count, count < scp_max_samples →
      (serie_loop rows i count).length = 2 * min rows.length (scp_max_samples - count) := by
  induction rows with
  | nil => intro count hc; simp [serie_loop]
  | cons row rest ih =>
      intro count hc
      simp only [serie_loop]
      by_cases hstop : count + 1 ≥ scp_max_samples
      · simp only [if_pos hstop, List.length_append, i16le_length, List.length_nil,
          List.length_cons]
        omega
      · rw [if_neg hstop]
        simp only [List.length_append, i16le_length, List.length_cons]
        rw [ih (count + 1) (by omega)]
        omega

/-- C8: when the recording's sample count exceeds 32767, `export_scp` sets
the SAMPLES_TRUNCATED bit (0x80), declares bytes-per-lead = 2 × 32767, and
stores exactly 32767 samples per lead; when the count is at most 32767 the
error word is unchanged (bit 0x80 stays clear), bytes-per-lead is
2 × samples, and every lead's series is stored in full. -/
theorem c8_samples_truncation (samples err : Nat) (rows : List (List (Option Int)))
    (hrows : rows.length = samples) (hbit : err.testBit 7 = false) :
    (32767 < samples →
        (scp_err_after_section6 samples err).testBit 7 = true ∧
        scp_bytes_to_store samples = 2 * 32767 ∧
        ∀ i < 12, (serie_loop rows i 0).length = 2 * 32767) ∧
    (samples ≤ 32767 →
        scp_err_after_section6 samples err = err ∧
        (scp_err_after_section6 samples err).testBit 7 = false ∧
        scp_bytes_to_store samples = 2 * samples ∧
        ∀ i < 12, (serie_loop rows i 0).length = 2 * samples) := by
  have hmax : scp_max_samples = 32767 := rfl
  constructor
  · intro h
    refine ⟨?_, ?_, ?_⟩
    · simp only [scp_err_after_section6, hmax, if_pos h, Nat.testBit_or]
      have h128 : Nat.testBit 128 7 = true := by decide
      rw [h128, Bool.or_true]
    · simp only [scp_bytes_to_store, hmax, if_pos h]; rfl
    · intro i _
      rw [serie_loop_length rows i 0 (by decide)]
      rw [hmax]
      omega
  · intro h
    have hn : ¬ (scp_max_samples < samples) := by omega
    refine ⟨?_, ?_, ?_, ?_⟩
    · simp only [scp_err_after_section6, if_neg hn]
    · simp only [scp_err_after_section6, if_neg hn]; exact hbit
    · simp only [scp_bytes_to_store, if_neg hn, ECG90A_SAMPLE_BITS]
      omega
    · intro i _
      rw [serie_loop_length rows i 0 (by decide)]
      rw [hmax]
      omega

/-- Two concrete rows for exercising the Section #6 serialization. -/
def c8Rows : List (List (Option Int)) := [[some 1], [some 2]]

theorem c8_samples_truncation_witness :
    (32767 < 2 →
        (scp_err_after_section6 2 0).testBit 7 = true ∧
        scp_bytes_to_store 2 = 2 * 32767 ∧
        ∀ i < 12, (serie_loop c8Rows i 0).length = 2 * 32767) ∧
    (2 ≤ 32767 →
        scp_err_after_section6 2 0 = 0 ∧
        (scp_err_after_section6 2 0).testBit 7 = false ∧
        scp_bytes_to_store 2 = 2 * 2 ∧
        ∀ i < 12, (serie_loop c8Rows i 0).length = 2 * 2) :=
  c8_samples_truncation 2 0 c8Rows (by decide) (by decide)

/-! ## Export guard and error word (`ecg.export_csv` / `ecg.export_scp`)

Both exporters share the same prologue: refuse (returning `None`) when the
recording's error word is non-zero; otherwise, when the target file exists
and `overwrite` is false, set the OUTPUT_EXISTS bit 0b00010000 and refuse;
otherwise proceed.  The filesystem check `os.path.exists(target)` is
abstracted as the boolean `output_exists`; a successful export is modelled
as `some ()` (the function returns the output path). -/

/-- The guard of `ecg.export_csv`: returns the outcome and the new error
word. -/
def export_csv_gate (err : Nat) (output_exists overwrite : Bool) :
    Option Unit × Nat :=
  if err ≠ 0 then (none, err)
  else if output_exists && !overwrite then (none, err ||| 0b00010000)
  else (some (), err)

/-- The guard of `ecg.export_scp`: identical to the `export_csv` guard. -/
def export_scp_gate (err : Nat) (output_exists overwrite : Bool) :
    Option Unit × Nat :=
  if err ≠ 0 then (none, err)
  else if output_exists && !overwrite then (none, err ||| 0b00010000)
  else (some (), err)

/-- C10: when `export_csv` (resp. `export_scp`) refuses because the target
exists and `overwrite` is false (possible only with a zero error word), it
sets the OUTPUT_EXISTS bit 0x10; the error word becomes non-zero, so every
subsequent `export_csv` or `export_scp` call on the same recording returns
`None` without changing the error word, regardless of `overwrite` or of the
target path's existence. -/
theorem c10_output_exists_poisons_exports (err : Nat) (h : err = 0) :
    (export_csv_gate err true false).1 = none ∧
    (export_csv_gate err true false).2.testBit 4 = true ∧
    (export_scp_gate err true false).1 = none ∧
    (export_scp_gate err true false).2.testBit 4 = true ∧
    (∀ e o : Bool,
      export_csv_gate (export_csv_gate err true false).2 e o =
        (none, (export_csv_gate err true false).2) ∧
      export_scp_gate (export_csv_gate err true false).2 e o =
        (none, (export_csv_gate err true false).2) ∧
      export_csv_gate (export_scp_gate err true false).2 e o =
        (none, (export_scp_gate err true false).2) ∧
      export_scp_gate (export_scp_gate err true false).2 e o =
        (none, (export_scp_gate err true false).2)) := by
  subst h
  decide

theorem c10_output_exists_poisons_exports_witness :
    (export_csv_gate 0 true false).1 = none ∧
    (export_csv_gate 0 true false).2.testBit 4 = true ∧
    (export_scp_gate 0 true false).1 = none ∧
    (export_scp_gate 0 true false).2.testBit 4 = true ∧
    (∀ e o : Bool,
      export_csv_gate (export_csv_gate 0 true false).2 e o =
        (none, (export_csv_gate 0 true false).2) ∧
      export_scp_gate (export_csv_gate 0 true false).2 e o =
        (none, (export_csv_gate 0 true false).2) ∧
      export_csv_gate (export_scp_gate 0 true false).2 e o =
        (none, (export_scp_gate 0 true false).2) ∧
      export_scp_gate (export_scp_gate 0 true false).2 e o =
        (none, (export_scp_gate 0 true false).2)) :=
  c10_output_exists_poisons_exports 0 rfl
